import Mathlib

/-!
# Ledger handlers of `src/app.js`

A shallow embedding of the Express handlers of `src/app.js` that touch account
balances and transaction records:

* `POST /api/v1/transactions` (lines 300-346),
* `PUT /api/v1/accounts/:id` (lines 258-298),
* the two `GET /api/v1/transactions` registrations (lines 348-404).

The Prisma client is modelled as explicit state passing over a `Store` of table
rows. Every handler is a function from the store and the request to the
response and the next store. The `await` points of the transfer handler are
also exposed as single steps, so that two requests can be interleaved.
-/

namespace App

/-! ## Data model -/

/-- Modelled from the spec: the Prisma schema that declares the tables is not
among the sources. Row of the `users` table, with the columns the handlers
read and write (lines 56-61 and 373-378). -/
structure Users where
  id : Int
  name : String
  email : String
  password : String
deriving DecidableEq, Repr

/-- Modelled from the spec: the Prisma schema that declares the tables is not
among the sources. Row of the `bank_accounts` table: the generated key `id`
and the columns written by `prisma.bank_accounts.create` at line 196. The
balance is an integer in the smallest currency unit, kept in an integer
column. -/
structure BankAccounts where
  id : Int
  bank_name : String
  bank_account_number : Int
  balance : Int
  user_Id : Int
deriving DecidableEq, Repr

/-- Modelled from the spec: the Prisma schema that declares the tables is not
among the sources. Row of the `transaction` table: the generated key `id` and
the three columns written by `prisma.transaction.create` at line 331. -/
structure Transaction where
  id : Int
  source_account_id : Int
  destination_account_id : Int
  amount : Int
deriving DecidableEq, Repr

/-- Modelled from the spec: the Prisma schema that declares the tables is not
among the sources. State of the database behind the Prisma client; rows are
kept in creation order. `transaction_seq` is the next value of the generated
key of the `transaction` table, which grows in creation order. `int_max` is
the largest value of the integer column type of the schema: an integer column
holds the values from `-(int_max + 1)` to `int_max`. -/
structure Store where
  users : List Users
  bank_accounts : List BankAccounts
  transaction : List Transaction
  transaction_seq : Int
  int_max : Int
deriving DecidableEq, Repr

/-! ## Request bodies and joi validation -/

/-- Value found under a key of a JSON request body, classified the way
`joi.number().integer().required()` classifies it. `integer n` is a JSON number
literal that denotes the integer `n`; `numericString n` is a JSON string whose
text denotes the integer `n` (joi converts strings by default). -/
inductive NumField where
  | missing
  | notNumber
  | notInteger
  | integer (n : Int)
  | numericString (n : Int)
deriving DecidableEq, Repr

/-! ## JS numbers -/

/-- The constant `Number.MAX_SAFE_INTEGER`, 2^53 - 1. -/
def maxSafeInteger : Int := 9007199254740991

/-- The test `Number.isSafeInteger` on an integer. -/
def isSafeInteger (n : Int) : Bool :=
  decide (-maxSafeInteger ≤ n ∧ n ≤ maxSafeInteger)

/-- Number of low bits that a magnitude has beyond the 53 bits of a JS
number. The first argument bounds the count; JS numbers end below 2^1024. -/
def extraBits : Nat → Nat → Nat
  | 0, _ => 0
  | fuel + 1, m => if m < 2 ^ 53 then 0 else extraBits fuel (m / 2) + 1

/-- The JS number that stands for the integer `n`: a JS number is a double
with 53 significant bits, and an integer with more bits is rounded to the
nearest double, a tie going to the even one. -/
def jsNumber (n : Int) : Int :=
  if n.natAbs < 2 ^ 53 then n
  else
    let e := extraBits 1024 n.natAbs
    let q := n.natAbs / 2 ^ e
    let r := n.natAbs % 2 ^ e
    let q1 := if 2 ^ e < 2 * r ∨ (2 * r = 2 ^ e ∧ q % 2 = 1) then q + 1 else q
    Int.sign n * ((q1 * 2 ^ e : Nat) : Int)

/-- The JS expression `x + y` on integer-valued numbers: the exact sum, rounded
once. -/
def jsAdd (x y : Int) : Int := jsNumber (x + y)

/-- The JS expression `x - y` on integer-valued numbers. -/
def jsSub (x y : Int) : Int := jsNumber (x - y)

/-- Value found under a key of a JSON request body, classified the way
`joi.string().required()` classifies it. -/
inductive StrField where
  | missing
  | notString
  | empty
  | string (s : String)
deriving DecidableEq, Repr

/-- The double quote character that joi puts around a key in its messages. -/
def dq : String := String.singleton (Char.ofNat 34)

/-- Text of `error.details[0].message` for a key and a failure. -/
def joiMessage (key : String) (what : String) : String :=
  dq ++ key ++ dq ++ what

/-- Validation of one key by `joi.number().integer().required()`: the
converted value, or the message of the first failure. -/
def joiInteger (key : String) : NumField → Except String Int
  | .missing => .error (joiMessage key " is required")
  | .notNumber => .error (joiMessage key " must be a number")
  | .notInteger => .error (joiMessage key " must be an integer")
  | .integer n =>
    if isSafeInteger n then .ok n else .error (joiMessage key " must be a safe number")
  | .numericString n =>
    if isSafeInteger n then .ok n else .error (joiMessage key " must be a safe number")

/-- Validation of one key by `joi.string().required()`. -/
def joiString (key : String) : StrField → Except String String
  | .missing => .error (joiMessage key " is required")
  | .notString => .error (joiMessage key " must be a string")
  | .empty => .error (joiMessage key " is not allowed to be empty")
  | .string s => .ok s

/-- Body of a `POST /api/v1/transactions` request after `bodyParser.json()`:
the three keys of `transactionSchema` and the first key that is not one of
them, if any. -/
structure TransactionBody where
  source_account_id : NumField
  destination_account_id : NumField
  amount : NumField
  unknownKey : Option String
deriving DecidableEq, Repr

/-- The `value` returned by `transactionSchema.validate`. -/
structure TransactionValue where
  source_account_id : Int
  destination_account_id : Int
  amount : Int
deriving DecidableEq, Repr

/-- The schema `transactionSchema` of lines 29-33: every key is a required
integer, in schema order, and a key outside the schema is refused. No rule
constrains the sign of `amount`. -/
def transactionSchema (body : TransactionBody) : Except String TransactionValue := do
  let source_account_id ← joiInteger "source_account_id" body.source_account_id
  let destination_account_id ← joiInteger "destination_account_id" body.destination_account_id
  let amount ← joiInteger "amount" body.amount
  match body.unknownKey with
  | some k => .error (joiMessage k " is not allowed")
  | none => .ok ⟨source_account_id, destination_account_id, amount⟩

/-- Body of a `PUT /api/v1/accounts/:id` request: the three keys the handler
destructures from `req.body` at line 260. -/
structure UpdateBankAccountBody where
  bank_name : StrField
  bank_account_number : NumField
  balance : NumField
deriving DecidableEq, Repr

/-- The schema `updateBankAccountSchema` of lines 24-28. -/
def updateBankAccountSchema (body : UpdateBankAccountBody) : Except String Unit := do
  let _ ← joiString "bank_name" body.bank_name
  let _ ← joiInteger "bank_account_number" body.bank_account_number
  let _ ← joiInteger "balance" body.balance
  .ok ()

/-! ## Responses -/

/-- Owner summary selected by `users: { select: { id, name, email } }`. -/
structure UserSummary where
  id : Int
  name : String
  email : String
deriving DecidableEq, Repr

/-- Account object nested in a listed transaction. A key that the query does
not select is absent (`none`). -/
structure AccountView where
  id : Int
  bank_name : String
  bank_account_number : Int
  balance : Option Int
  user_Id : Option Int
  users : Option UserSummary
deriving DecidableEq, Repr

/-- Element of the array answered by `GET /api/v1/transactions`. The relation
objects are `none` when the referenced account row does not exist. -/
structure TransactionView where
  id : Int
  source_account_id : Int
  destination_account_id : Int
  amount : Int
  source : Option AccountView
  destination : Option AccountView
deriving DecidableEq, Repr

/-- JSON payload of a response. -/
inductive Body where
  | error (message : String)
  | success (message : String)
  | account (row : BankAccounts)
  | transactions (rows : List TransactionView)
deriving DecidableEq, Repr

/-- Result of `res.status(..).json(..)`. -/
structure Response where
  status : Nat
  body : Body
deriving DecidableEq, Repr

/-! ## Prisma operations -/

/-- The query `prisma.bank_accounts.findUnique({ where: { id } })`. -/
def findUniqueAccount (s : Store) (id : Int) : Option BankAccounts :=
  s.bank_accounts.find? (fun a => a.id == id)

/-- The query `prisma.users.findUnique({ where: { id } })`. -/
def findUniqueUser (s : Store) (id : Int) : Option Users :=
  s.users.find? (fun u => u.id == id)

/-- True when an integer column of the store can hold `n`. -/
def columnFits (s : Store) (n : Int) : Bool :=
  decide (-(s.int_max + 1) ≤ n ∧ n ≤ s.int_max)

/-- One write of a `prisma.$transaction([...])` batch. -/
inductive Write where
  | updateBalance (id : Int) (balance : Int)
  | updateAccount (id : Int) (bank_name : String) (bank_account_number : Int) (balance : Int)
  | createTransaction (source_account_id destination_account_id amount : Int)
deriving DecidableEq, Repr

/-- Rewrite the rows with key `id`. -/
def updateRows (rows : List BankAccounts) (id : Int) (f : BankAccounts → BankAccounts) :
    List BankAccounts :=
  rows.map (fun a => if a.id = id then f a else a)

/-- Effect of one write. The call throws (`none`) when `update` finds no row
with the key, or when a number handed over for an integer column is outside
the range of the column. -/
def applyWrite (s : Store) : Write → Option Store
  | .updateBalance id balance =>
    match findUniqueAccount s id with
    | none => none
    | some _ =>
      if columnFits s balance then
        some { s with bank_accounts := updateRows s.bank_accounts id (fun a => { a with balance := balance }) }
      else none
  | .updateAccount id bank_name bank_account_number balance =>
    match findUniqueAccount s id with
    | none => none
    | some _ =>
      if columnFits s bank_account_number && columnFits s balance then
        some { s with bank_accounts := updateRows s.bank_accounts id (fun a =>
          { a with bank_name := bank_name, bank_account_number := bank_account_number, balance := balance }) }
      else none
  | .createTransaction source_account_id destination_account_id amount =>
    if columnFits s amount then
      some { s with
        transaction := s.transaction ++ [⟨s.transaction_seq, source_account_id, destination_account_id, amount⟩],
        transaction_seq := s.transaction_seq + 1 }
    else none

/-- The batch `prisma.$transaction([...])`: the writes are applied in order and
all of them commit, or none does. -/
def prismaTransaction (s : Store) : List Write → Option Store
  | [] => some s
  | w :: ws =>
    match applyWrite s w with
    | none => none
    | some s1 => prismaTransaction s1 ws

/-! ## POST /api/v1/transactions -/

/-- The three writes of lines 322-338. The new balances are computed in JS
arithmetic from the two rows read before the batch. -/
def transferWrites (v : TransactionValue) (existingSourceAccount existingDestinationAccount : BankAccounts) :
    List Write :=
  [ .updateBalance v.source_account_id (jsSub existingSourceAccount.balance v.amount),
    .updateBalance v.destination_account_id (jsAdd existingDestinationAccount.balance v.amount),
    .createTransaction v.source_account_id v.destination_account_id v.amount ]

/-- The handler `app.post('/api/v1/transactions')` of lines 300-346, run
without any other request in between. A batch that throws is rolled back and
answered 500 by the `catch` of line 342. -/
def postTransactions (s : Store) (body : TransactionBody) : Response × Store :=
  match transactionSchema body with
  | .error message => (⟨400, .error message⟩, s)
  | .ok v =>
    match findUniqueAccount s v.source_account_id, findUniqueAccount s v.destination_account_id with
    | some existingSourceAccount, some existingDestinationAccount =>
      if existingSourceAccount.balance < v.amount then
        (⟨400, .error "Insufficient balance"⟩, s)
      else
        match prismaTransaction s (transferWrites v existingSourceAccount existingDestinationAccount) with
        | some s1 => (⟨201, .success "Transaction successful"⟩, s1)
        | none => (⟨500, .error "Internal server error"⟩, s)
    | _, _ => (⟨404, .error "Source or destination account not found"⟩, s)

/-- Request body with exactly the three keys, given as JSON integers. -/
def transferRequest (source_account_id destination_account_id amount : Int) : TransactionBody :=
  ⟨.integer source_account_id, .integer destination_account_id, .integer amount, none⟩

/-- Balance of the account with key `id`, if it exists. -/
def balanceOf (s : Store) (id : Int) : Option Int :=
  (findUniqueAccount s id).map (fun a => a.balance)

/-- Sum of the balances of all account rows. -/
def totalBalance (s : Store) : Int :=
  (s.bank_accounts.map (fun a => a.balance)).sum

/-- Store of scenario 1: account 1 holds 100, account 2 holds 50; integer
columns are 32 bits wide. -/
def store1 : Store :=
  { users := [⟨1, "Ana", "ana@mail.test", "secret1"⟩, ⟨2, "Budi", "budi@mail.test", "secret2"⟩],
    bank_accounts := [⟨1, "BCA", 111, 100, 1⟩, ⟨2, "BNI", 222, 50, 2⟩],
    transaction := [],
    transaction_seq := 1,
    int_max := 2147483647 }

/-- Store of scenario 2: account 1 holds 10, account 2 holds 50. -/
def store2 : Store :=
  { users := [⟨1, "Ana", "ana@mail.test", "secret1"⟩, ⟨2, "Budi", "budi@mail.test", "secret2"⟩],
    bank_accounts := [⟨1, "BCA", 111, 10, 1⟩, ⟨2, "BNI", 222, 50, 2⟩],
    transaction := [],
    transaction_seq := 1,
    int_max := 2147483647 }

/-- Store whose integer columns hold every safe integer; account 1 holds 10
and account 2 holds the largest safe integer. -/
def storeBig : Store :=
  { users := [⟨1, "Ana", "ana@mail.test", "secret1"⟩, ⟨2, "Budi", "budi@mail.test", "secret2"⟩],
    bank_accounts := [⟨1, "BCA", 111, 10, 1⟩, ⟨2, "BNI", 222, 9007199254740991, 2⟩],
    transaction := [],
    transaction_seq := 1,
    int_max := 9007199254740991 }

/-! ## PUT /api/v1/accounts/:id -/

/-- Value that the update handler hands to Prisma for an integer column. The
handler destructures `req.body` itself (line 260) and not the converted value
of the schema, and the Prisma client accepts only a JSON number there. -/
def rawInteger : NumField → Option Int
  | .integer n => some n
  | _ => none

/-- Value that the update handler hands to Prisma for a text column. -/
def rawString : StrField → Option String
  | .string s => some s
  | _ => none

/-- The query `prisma.bank_accounts.findFirst` of lines 274-281: a row with the
account number that is not the row with key `id`. -/
def findOtherWithNumber (s : Store) (bank_account_number id : Int) : Option BankAccounts :=
  s.bank_accounts.find? (fun a => a.bank_account_number == bank_account_number && a.id != id)

/-- The handler `app.put('/api/v1/accounts/:id')` of lines 258-298, for a route
parameter that `parseInt` reads as the integer `id`. The storage calls run in
source order: `findUnique` (404), `findFirst` with the raw account number
(409), `update` with the three raw values; a call that throws is answered 500
by the `catch` of line 294. -/
def putAccounts (s : Store) (id : Int) (body : UpdateBankAccountBody) : Response × Store :=
  match updateBankAccountSchema body with
  | .error message => (⟨400, .error message⟩, s)
  | .ok _ =>
    match findUniqueAccount s id with
    | none => (⟨404, .error "Account not found"⟩, s)
    | some existingAccount =>
      match rawInteger body.bank_account_number with
      | none => (⟨500, .error "Internal server error"⟩, s)
      | some bank_account_number =>
        match findOtherWithNumber s bank_account_number id with
        | some _ => (⟨409, .error "Account number already registered"⟩, s)
        | none =>
          match rawString body.bank_name, rawInteger body.balance with
          | some bank_name, some balance =>
            match applyWrite s (.updateAccount id bank_name bank_account_number balance) with
            | some s1 =>
              (⟨200, .account { existingAccount with
                  bank_name := bank_name, bank_account_number := bank_account_number,
                  balance := balance }⟩, s1)
            | none => (⟨500, .error "Internal server error"⟩, s)
          | _, _ => (⟨500, .error "Internal server error"⟩, s)

/-! ## GET /api/v1/transactions -/

/-- Account object produced by `include: { source: true }`: every column of
the row and no nested owner. -/
def accountFull (a : BankAccounts) : AccountView :=
  ⟨a.id, a.bank_name, a.bank_account_number, some a.balance, some a.user_Id, none⟩

/-- Owner object produced by `users: { select: { id, name, email } }`. -/
def userSummary (u : Users) : UserSummary :=
  ⟨u.id, u.name, u.email⟩

/-- Account object produced by the nested `select` of lines 368-380: three
columns and the owner summary. -/
def accountSummary (s : Store) (a : BankAccounts) : AccountView :=
  ⟨a.id, a.bank_name, a.bank_account_number, none, none, (findUniqueUser s a.user_Id).map userSummary⟩

/-- Record of the first registration (lines 348-362). -/
def viewFull (s : Store) (t : Transaction) : TransactionView :=
  ⟨t.id, t.source_account_id, t.destination_account_id, t.amount,
    (findUniqueAccount s t.source_account_id).map accountFull,
    (findUniqueAccount s t.destination_account_id).map accountFull⟩

/-- Record of the second registration (lines 364-404). -/
def viewSummary (s : Store) (t : Transaction) : TransactionView :=
  ⟨t.id, t.source_account_id, t.destination_account_id, t.amount,
    (findUniqueAccount s t.source_account_id).map (accountSummary s),
    (findUniqueAccount s t.destination_account_id).map (accountSummary s)⟩

/-- A route handler for a request without body: the response it sends, or
`none` when it passes the request on with `next()`. -/
abbrev Handler := Store → Option Response

/-- First registration of `GET /api/v1/transactions` (lines 348-362). It
always answers. -/
def getTransactionsFirst : Handler := fun s =>
  some ⟨200, .transactions (s.transaction.map (viewFull s))⟩

/-- Second registration of `GET /api/v1/transactions` (lines 364-404). It
always answers. -/
def getTransactionsSecond : Handler := fun s =>
  some ⟨200, .transactions (s.transaction.map (viewSummary s))⟩

/-- The Express router on one path: handlers run in registration order and the
first one that answers ends the request. -/
def dispatch (s : Store) : List Handler → Option Response
  | [] => none
  | h :: rest =>
    match h s with
    | some r => some r
    | none => dispatch s rest

/-- Handlers registered for `GET /api/v1/transactions`, in source order. -/
def getTransactionsRoute : List Handler :=
  [getTransactionsFirst, getTransactionsSecond]

/-- Response that a `GET /api/v1/transactions` request receives. -/
def getTransactions (s : Store) : Option Response :=
  dispatch s getTransactionsRoute

/-- True when the account object carries an owner summary equal to the stored
owner of the account row with the same key. -/
def ownerMatches (s : Store) (v : AccountView) : Prop :=
  ∃ a u, findUniqueAccount s v.id = some a ∧ findUniqueUser s a.user_Id = some u ∧
    v.users = some (userSummary u)

/-! ## The transfer handler at the granularity of its `await` points -/

/-- Progress of one `POST /api/v1/transactions` request. Each constructor is
the state in front of one storage call of lines 309-338. -/
inductive Proc where
  | start (body : TransactionBody)
  | readSource (v : TransactionValue) (existingSourceAccount : Option BankAccounts)
  | checked (v : TransactionValue) (existingSourceAccount existingDestinationAccount : BankAccounts)
  | done (r : Response)
deriving DecidableEq, Repr

/-- One storage step of a request: validation and the read of the source row,
then the read of the destination row and the two guards, then the batch. -/
def stepTransfer (s : Store) : Proc → Proc × Store
  | .start body =>
    match transactionSchema body with
    | .error message => (.done ⟨400, .error message⟩, s)
    | .ok v => (.readSource v (findUniqueAccount s v.source_account_id), s)
  | .readSource v existingSourceAccount =>
    match existingSourceAccount, findUniqueAccount s v.destination_account_id with
    | some a, some b =>
      if a.balance < v.amount then
        (.done ⟨400, .error "Insufficient balance"⟩, s)
      else
        (.checked v a b, s)
    | _, _ => (.done ⟨404, .error "Source or destination account not found"⟩, s)
  | .checked v a b =>
    match prismaTransaction s (transferWrites v a b) with
    | some s1 => (.done ⟨201, .success "Transaction successful"⟩, s1)
    | none => (.done ⟨500, .error "Internal server error"⟩, s)
  | .done r => (.done r, s)

/-- Two requests in flight over one store; the schedule says which of them
takes the next storage step (`false` the first, `true` the second). -/
def runSchedule (s : Store) (p q : Proc) : List Bool → Store × Proc × Proc
  | [] => (s, p, q)
  | false :: rest => runSchedule (stepTransfer s p).2 (stepTransfer s p).1 q rest
  | true :: rest => runSchedule (stepTransfer s q).2 p (stepTransfer s q).1 rest

/-- Store of the concurrency scenario with X = 2: account 1 holds 3. -/
def store3 : Store :=
  { users := [⟨1, "Ana", "ana@mail.test", "secret1"⟩, ⟨2, "Budi", "budi@mail.test", "secret2"⟩],
    bank_accounts := [⟨1, "BCA", 111, 3, 1⟩, ⟨2, "BNI", 222, 0, 2⟩],
    transaction := [],
    transaction_seq := 1,
    int_max := 2147483647 }

/-- Store reached from `store1` by three transfers of 10 from account 1 to
account 2. -/
def store4 : Store :=
  (postTransactions (postTransactions (postTransactions store1
    (transferRequest 1 2 10)).2 (transferRequest 1 2 10)).2 (transferRequest 1 2 10)).2

/-- Account ids are keys: no two account rows share one. -/
def Store.keysDistinct (s : Store) : Prop :=
  (s.bank_accounts.map (fun a => a.id)).Nodup

/-- Request body whose amount is the JSON number 1.5. -/
def fractionalAmountBody : TransactionBody :=
  ⟨.integer 1, .integer 2, .notInteger, none⟩

/-- True when `n` is a safe integer that an integer column of the store can
hold: JS represents it exactly and a write of it is accepted. -/
def Store.holds (s : Store) (n : Int) : Bool :=
  isSafeInteger n && columnFits s n

/-- Store after the batch of a transfer that read the rows `a` and `b`, when
no write of the batch throws. -/
def transferred (s : Store) (v : TransactionValue) (a b : BankAccounts) : Store :=
  { s with
    bank_accounts :=
      updateRows
        (updateRows s.bank_accounts v.source_account_id (fun r => { r with balance := jsSub a.balance v.amount }))
        v.destination_account_id (fun r => { r with balance := jsAdd b.balance v.amount }),
    transaction :=
      s.transaction ++ [⟨s.transaction_seq, v.source_account_id, v.destination_account_id, v.amount⟩],
    transaction_seq := s.transaction_seq + 1 }

/-! ## Lemmas on the storage operations -/

theorem jsNumber_of_safe (n : Int) (h : isSafeInteger n = true) : jsNumber n = n := by
  have hb : -maxSafeInteger ≤ n ∧ n ≤ maxSafeInteger := by simpa [isSafeInteger] using h
  have hlt : n.natAbs < 2 ^ 53 := by
    unfold maxSafeInteger at hb
    omega
  unfold jsNumber
  rw [if_pos hlt]

theorem holds_iff (s : Store) (n : Int) :
    s.holds n = true ↔
      (-maxSafeInteger ≤ n ∧ n ≤ maxSafeInteger) ∧ (-(s.int_max + 1) ≤ n ∧ n ≤ s.int_max) := by
  simp [Store.holds, isSafeInteger, columnFits]

theorem transactionSchema_transferRequest (A B amount : Int) (hA : isSafeInteger A = true)
    (hB : isSafeInteger B = true) (hn : isSafeInteger amount = true) :
    transactionSchema (transferRequest A B amount) = .ok ⟨A, B, amount⟩ := by
  simp [transactionSchema, transferRequest, joiInteger, hA, hB, hn, bind, Except.bind]

theorem find_updateRows (rows : List BankAccounts) (id j : Int) (f : BankAccounts → BankAccounts)
    (hf : ∀ r, (f r).id = r.id) :
    (updateRows rows id f).find? (fun r => r.id == j) =
      (rows.find? (fun r => r.id == j)).map (fun r => if r.id = id then f r else r) := by
  have hg : ((fun r : BankAccounts => r.id == j) ∘ fun r => if r.id = id then f r else r) =
      (fun r : BankAccounts => r.id == j) := by
    funext r
    by_cases h : r.id = id
    · simp [Function.comp, h, hf]
    · simp [Function.comp, h]
  unfold updateRows
  rw [List.find?_map, hg]

theorem findUniqueAccount_id (s : Store) (id : Int) (a : BankAccounts)
    (h : findUniqueAccount s id = some a) : a.id = id := by
  have := List.find?_some h
  simpa using this

theorem findUniqueAccount_updateRows (s S : Store) (id j : Int) (f : BankAccounts → BankAccounts)
    (b : BankAccounts) (hf : ∀ r, (f r).id = r.id)
    (hS : S.bank_accounts = updateRows s.bank_accounts id f)
    (hb : findUniqueAccount s j = some b) :
    ∃ c, findUniqueAccount S j = some c := by
  unfold findUniqueAccount at hb ⊢
  rw [hS, find_updateRows s.bank_accounts id j f hf, hb]
  exact ⟨_, rfl⟩

theorem prismaTransaction_transferWrites (s : Store) (v : TransactionValue) (a b a0 b0 : BankAccounts)
    (ha : findUniqueAccount s v.source_account_id = some a0)
    (hb : findUniqueAccount s v.destination_account_id = some b0)
    (hfa : columnFits s (jsSub a.balance v.amount) = true)
    (hfb : columnFits s (jsAdd b.balance v.amount) = true)
    (hfm : columnFits s v.amount = true) :
    prismaTransaction s (transferWrites v a b) = some (transferred s v a b) := by
  obtain ⟨c, hc⟩ := findUniqueAccount_updateRows s
    ⟨s.users, updateRows s.bank_accounts v.source_account_id
      (fun r => { r with balance := jsSub a.balance v.amount }), s.transaction, s.transaction_seq,
      s.int_max⟩
    v.source_account_id v.destination_account_id
    (fun r => { r with balance := jsSub a.balance v.amount }) b0 (fun _ => rfl) rfl hb
  have hfb1 : ∀ u r t q, columnFits ⟨u, r, t, q, s.int_max⟩ (jsAdd b.balance v.amount) = true :=
    fun _ _ _ _ => hfb
  have hfm1 : ∀ u r t q, columnFits ⟨u, r, t, q, s.int_max⟩ v.amount = true :=
    fun _ _ _ _ => hfm
  simp only [transferWrites, prismaTransaction, applyWrite, ha, hfa, if_true, hc, hfb1, hfm1]
  rfl

theorem prismaTransaction_cons (s : Store) (w : Write) (ws : List Write) :
    prismaTransaction s (w :: ws) =
      (applyWrite s w).bind (fun s1 => prismaTransaction s1 ws) := by
  rw [prismaTransaction]
  cases applyWrite s w <;> rfl

theorem applyWrite_updateBalance_refused (s : Store) (id x : Int)
    (h : columnFits s x = false) : applyWrite s (.updateBalance id x) = none := by
  cases hf : findUniqueAccount s id <;> simp [applyWrite, hf, h]

theorem applyWrite_updateBalance_int_max (s s1 : Store) (id x : Int)
    (h : applyWrite s (.updateBalance id x) = some s1) : s1.int_max = s.int_max := by
  unfold applyWrite at h
  cases hf : findUniqueAccount s id with
  | none => simp [hf] at h
  | some a =>
    cases hc : columnFits s x with
    | false => simp [hf, hc] at h
    | true =>
      simp [hf, hc] at h
      rw [← h]

theorem prismaTransaction_credit_refused (s : Store) (v : TransactionValue) (a b : BankAccounts)
    (hfb : columnFits s (jsAdd b.balance v.amount) = false) :
    prismaTransaction s (transferWrites v a b) = none := by
  rw [transferWrites, prismaTransaction_cons]
  cases h1 : applyWrite s (.updateBalance v.source_account_id (jsSub a.balance v.amount)) with
  | none => rfl
  | some s1 =>
    have hm : s1.int_max = s.int_max := applyWrite_updateBalance_int_max s s1 _ _ h1
    have hfb1 : columnFits s1 (jsAdd b.balance v.amount) = false := by
      unfold columnFits at hfb ⊢
      rw [hm]
      exact hfb
    show prismaTransaction s1 _ = none
    rw [prismaTransaction_cons, applyWrite_updateBalance_refused s1 _ _ hfb1]
    rfl

theorem postTransactions_created (s : Store) (body : TransactionBody) (v : TransactionValue)
    (a b : BankAccounts) (hv : transactionSchema body = .ok v)
    (ha : findUniqueAccount s v.source_account_id = some a)
    (hb : findUniqueAccount s v.destination_account_id = some b)
    (hle : v.amount ≤ a.balance)
    (hfa : columnFits s (jsSub a.balance v.amount) = true)
    (hfb : columnFits s (jsAdd b.balance v.amount) = true)
    (hfm : columnFits s v.amount = true) :
    postTransactions s body = (⟨201, .success "Transaction successful"⟩, transferred s v a b) := by
  unfold postTransactions
  simp only [hv, ha, hb, not_lt.mpr hle, if_false,
    prismaTransaction_transferWrites s v a b a b ha hb hfa hfb hfm]

theorem postTransactions_refused (s : Store) (body : TransactionBody) (v : TransactionValue)
    (a b : BankAccounts) (hv : transactionSchema body = .ok v)
    (ha : findUniqueAccount s v.source_account_id = some a)
    (hb : findUniqueAccount s v.destination_account_id = some b)
    (hle : v.amount ≤ a.balance)
    (hfb : columnFits s (jsAdd b.balance v.amount) = false) :
    postTransactions s body = (⟨500, .error "Internal server error"⟩, s) := by
  unfold postTransactions
  simp only [hv, ha, hb, not_lt.mpr hle, if_false, prismaTransaction_credit_refused s v a b hfb]

theorem postTransactions_insufficient (s : Store) (body : TransactionBody) (v : TransactionValue)
    (a b : BankAccounts) (hv : transactionSchema body = .ok v)
    (ha : findUniqueAccount s v.source_account_id = some a)
    (hb : findUniqueAccount s v.destination_account_id = some b)
    (hlt : a.balance < v.amount) :
    postTransactions s body = (⟨400, .error "Insufficient balance"⟩, s) := by
  unfold postTransactions
  simp only [hv, ha, hb, hlt, if_true]

theorem postTransactions_not_found (s : Store) (body : TransactionBody) (v : TransactionValue)
    (hv : transactionSchema body = .ok v)
    (h : findUniqueAccount s v.source_account_id = none ∨
      findUniqueAccount s v.destination_account_id = none) :
    postTransactions s body = (⟨404, .error "Source or destination account not found"⟩, s) := by
  unfold postTransactions
  simp only [hv]
  split
  · next a b ha hb =>
    rcases h with h | h
    · rw [h] at ha; cases ha
    · rw [h] at hb; cases hb
  · rfl

theorem postTransactions_invalid (s : Store) (body : TransactionBody) (message : String)
    (hv : transactionSchema body = .error message) :
    postTransactions s body = (⟨400, .error message⟩, s) := by
  unfold postTransactions
  simp only [hv]

theorem balanceOf_transferred (s : Store) (v : TransactionValue) (a b : BankAccounts) (j : Int) :
    balanceOf (transferred s v a b) j =
      (balanceOf s j).map (fun x =>
        if j = v.destination_account_id then jsAdd b.balance v.amount
        else if j = v.source_account_id then jsSub a.balance v.amount else x) := by
  unfold balanceOf findUniqueAccount transferred
  simp only
  rw [find_updateRows _ v.destination_account_id j (fun r => { r with balance := jsAdd b.balance v.amount })
      (fun _ => rfl),
    find_updateRows _ v.source_account_id j (fun r => { r with balance := jsSub a.balance v.amount })
      (fun _ => rfl)]
  cases h : List.find? (fun r => r.id == j) s.bank_accounts with
  | none => rfl
  | some r =>
    have hr : r.id = j := by simpa using List.find?_some h
    by_cases h1 : j = v.source_account_id <;> by_cases h2 : j = v.destination_account_id <;>
      simp_all

theorem balanceOf_updateRows (s S : Store) (id j : Int) (f : BankAccounts → BankAccounts)
    (hf : ∀ r, (f r).id = r.id) (hS : S.bank_accounts = updateRows s.bank_accounts id f) :
    balanceOf S j =
      (findUniqueAccount s j).map (fun r => if r.id = id then (f r).balance else r.balance) := by
  unfold balanceOf findUniqueAccount
  rw [hS, find_updateRows s.bank_accounts id j f hf]
  cases List.find? (fun r => r.id == j) s.bank_accounts with
  | none => rfl
  | some r =>
    by_cases h : r.id = id <;> simp [h]

theorem putAccounts_ok (s : Store) (id : Int) (body : UpdateBankAccountBody)
    (h : (putAccounts s id body).1.status = 200) :
    ∃ bank_name bank_account_number balance,
      body.balance = .integer balance ∧
      (∃ a, findUniqueAccount s id = some a) ∧
      (putAccounts s id body).2 =
        { s with bank_accounts := updateRows s.bank_accounts id (fun a =>
            { a with bank_name := bank_name, bank_account_number := bank_account_number,
                     balance := balance }) } := by
  unfold putAccounts at h ⊢
  split at h
  · simp at h
  · split at h
    · simp at h
    · next existingAccount hex =>
      split at h
      · simp at h
      · next bank_account_number hnum =>
        split at h
        · simp at h
        · next hother =>
          split at h
          · next bank_name balance hn hbal =>
            have hbal2 : body.balance = .integer balance := by
              cases hb : body.balance <;> simp [hb, rawInteger] at hbal
              exact congrArg _ hbal
            cases hfit : (columnFits s bank_account_number && columnFits s balance) with
            | false => simp [applyWrite, hex, hfit] at h
            | true =>
              refine ⟨bank_name, bank_account_number, balance, hbal2, ⟨_, hex⟩, ?_⟩
              simp only [hex, hn, hnum, hbal, hother, applyWrite, hfit, if_true]
          · simp at h

theorem stepTransfer_three (s : Store) (body : TransactionBody) :
    stepTransfer (stepTransfer (stepTransfer s (.start body)).2 (stepTransfer s (.start body)).1).2
        (stepTransfer (stepTransfer s (.start body)).2 (stepTransfer s (.start body)).1).1 =
      (.done (postTransactions s body).1, (postTransactions s body).2) := by
  unfold postTransactions
  cases hv : transactionSchema body with
  | error m => simp [stepTransfer, hv]
  | ok v =>
    cases ha : findUniqueAccount s v.source_account_id with
    | none => simp [stepTransfer, hv, ha]
    | some a =>
      cases hb : findUniqueAccount s v.destination_account_id with
      | none => simp [stepTransfer, hv, ha, hb]
      | some b =>
        by_cases hlt : a.balance < v.amount
        · simp [stepTransfer, hv, ha, hb, hlt]
        · simp only [stepTransfer, hv, ha, hb, hlt, if_false]
          cases prismaTransaction s (transferWrites v a b) <;> rfl

/-! ## Lemmas on validation messages -/

theorem joiMessage_ne_insufficient (key what : String) :
    joiMessage key what ≠ "Insufficient balance" := by
  intro h
  have h1 := congrArg String.data h
  simp [joiMessage, dq, String.data_append] at h1

theorem joiInteger_error (key : String) (f : NumField) (m : String)
    (h : joiInteger key f = .error m) : ∃ what, m = joiMessage key what := by
  cases f with
  | missing => exact ⟨_, (Except.error.inj h).symm⟩
  | notNumber => exact ⟨_, (Except.error.inj h).symm⟩
  | notInteger => exact ⟨_, (Except.error.inj h).symm⟩
  | integer n =>
    simp only [joiInteger] at h
    split at h
    · cases h
    · exact ⟨_, (Except.error.inj h).symm⟩
  | numericString n =>
    simp only [joiInteger] at h
    split at h
    · cases h
    · exact ⟨_, (Except.error.inj h).symm⟩

theorem transactionSchema_error (body : TransactionBody) (m : String)
    (h : transactionSchema body = .error m) : ∃ key what, m = joiMessage key what := by
  unfold transactionSchema at h
  cases h1 : joiInteger "source_account_id" body.source_account_id with
  | error e =>
    rw [h1] at h
    obtain ⟨w, hw⟩ := joiInteger_error _ _ _ h1
    have : e = m := by simpa [bind, Except.bind] using h
    exact ⟨_, w, this ▸ hw⟩
  | ok x =>
    rw [h1] at h
    cases h2 : joiInteger "destination_account_id" body.destination_account_id with
    | error e =>
      rw [h2] at h
      obtain ⟨w, hw⟩ := joiInteger_error _ _ _ h2
      have : e = m := by simpa [bind, Except.bind] using h
      exact ⟨_, w, this ▸ hw⟩
    | ok y =>
      rw [h2] at h
      cases h3 : joiInteger "amount" body.amount with
      | error e =>
        rw [h3] at h
        obtain ⟨w, hw⟩ := joiInteger_error _ _ _ h3
        have : e = m := by simpa [bind, Except.bind] using h
        exact ⟨_, w, this ▸ hw⟩
      | ok z =>
        rw [h3] at h
        cases hu : body.unknownKey with
        | none => rw [hu] at h; simp [bind, Except.bind] at h
        | some k =>
          rw [hu] at h
          have : joiMessage k " is not allowed" = m := by simpa [bind, Except.bind] using h
          exact ⟨k, _, this.symm⟩

/-! ## Supporting results: what the handlers do guarantee -/

theorem updateRows_ids (rows : List BankAccounts) (id : Int) (f : BankAccounts → BankAccounts)
    (hf : ∀ r, (f r).id = r.id) :
    (updateRows rows id f).map (fun r => r.id) = rows.map (fun r => r.id) := by
  unfold updateRows
  rw [List.map_map]
  apply List.map_congr_left
  intro r _
  by_cases h : r.id = id <;> simp [Function.comp, h, hf]

theorem updateRows_absent (rows : List BankAccounts) (id : Int) (f : BankAccounts → BankAccounts)
    (h : id ∉ rows.map (fun r => r.id)) : updateRows rows id f = rows := by
  unfold updateRows
  conv_rhs => rw [← List.map_id rows]
  apply List.map_congr_left
  intro r hr
  have : r.id ≠ id := by
    intro e
    exact h (e ▸ List.mem_map_of_mem (fun r => r.id) hr)
  simp [this]

theorem sum_updateRows (rows : List BankAccounts) (id x : Int) (a : BankAccounts)
    (hnd : (rows.map (fun r => r.id)).Nodup)
    (ha : rows.find? (fun r => r.id == id) = some a) :
    ((updateRows rows id (fun r => { r with balance := x })).map (fun r => r.balance)).sum =
      (rows.map (fun r => r.balance)).sum - a.balance + x := by
  induction rows with
  | nil => simp at ha
  | cons r rest ih =>
    rw [List.map_cons, List.nodup_cons] at hnd
    by_cases h : r.id = id
    · have hra : r = a := by simpa [List.find?_cons, h] using ha
      subst hra
      have hrest : updateRows rest id (fun r => { r with balance := x }) = rest :=
        updateRows_absent rest id _ (h ▸ hnd.1)
      have hunf : updateRows (r :: rest) id (fun r => { r with balance := x }) =
          { r with balance := x } :: updateRows rest id (fun r => { r with balance := x }) := by
        simp [updateRows, h]
      rw [hunf, hrest]
      simp only [List.map_cons, List.sum_cons]
      ring
    · have hfind : rest.find? (fun r => r.id == id) = some a := by
        simpa [List.find?_cons, h] using ha
      have hunf : updateRows (r :: rest) id (fun r => { r with balance := x }) =
          r :: updateRows rest id (fun r => { r with balance := x }) := by
        simp [updateRows, h]
      rw [hunf]
      simp only [List.map_cons, List.sum_cons]
      rw [ih hnd.2 hfind]
      ring

theorem totalBalance_transferred (s : Store) (v : TransactionValue) (a b : BankAccounts)
    (hk : s.keysDistinct) (hne : v.source_account_id ≠ v.destination_account_id)
    (ha : findUniqueAccount s v.source_account_id = some a)
    (hb : findUniqueAccount s v.destination_account_id = some b) :
    totalBalance (transferred s v a b) =
      totalBalance s - a.balance + jsSub a.balance v.amount - b.balance +
        jsAdd b.balance v.amount := by
  unfold totalBalance transferred
  simp only
  have hb1 : (updateRows s.bank_accounts v.source_account_id
      (fun r => { r with balance := jsSub a.balance v.amount })).find?
        (fun r => r.id == v.destination_account_id) = some b := by
    rw [find_updateRows s.bank_accounts v.source_account_id v.destination_account_id
      (fun r => { r with balance := jsSub a.balance v.amount }) (fun _ => rfl)]
    unfold findUniqueAccount at hb
    rw [hb]
    have hid : b.id = v.destination_account_id := by simpa using List.find?_some hb
    have : ¬ b.id = v.source_account_id := by rw [hid]; exact fun e => hne e.symm
    simp [this]
  have hk1 : ((updateRows s.bank_accounts v.source_account_id
      (fun r => { r with balance := jsSub a.balance v.amount })).map (fun r => r.id)).Nodup := by
    rw [updateRows_ids s.bank_accounts v.source_account_id
      (fun r => { r with balance := jsSub a.balance v.amount }) (fun _ => rfl)]
    exact hk
  rw [sum_updateRows _ _ _ b hk1 hb1, sum_updateRows _ _ _ a hk ha]

theorem holds_safe (s : Store) (n : Int) (h : s.holds n = true) : isSafeInteger n = true := by
  simp only [Store.holds, Bool.and_eq_true] at h
  exact h.1

theorem holds_fits (s : Store) (n : Int) (h : s.holds n = true) : columnFits s n = true := by
  simp only [Store.holds, Bool.and_eq_true] at h
  exact h.2

/-- A transfer whose two new balances are safe integers within the column range
is computed exactly and written. -/
theorem postTransactions_exact (s : Store) (body : TransactionBody) (v : TransactionValue)
    (a b : BankAccounts) (hv : transactionSchema body = .ok v)
    (ha : findUniqueAccount s v.source_account_id = some a)
    (hb : findUniqueAccount s v.destination_account_id = some b)
    (hle : v.amount ≤ a.balance)
    (hxa : s.holds (a.balance - v.amount) = true) (hxb : s.holds (b.balance + v.amount) = true)
    (hfm : columnFits s v.amount = true) :
    postTransactions s body = (⟨201, .success "Transaction successful"⟩, transferred s v a b) ∧
    jsSub a.balance v.amount = a.balance - v.amount ∧
    jsAdd b.balance v.amount = b.balance + v.amount := by
  have hsub : jsSub a.balance v.amount = a.balance - v.amount :=
    jsNumber_of_safe _ (holds_safe s _ hxa)
  have hadd : jsAdd b.balance v.amount = b.balance + v.amount :=
    jsNumber_of_safe _ (holds_safe s _ hxb)
  refine ⟨?_, hsub, hadd⟩
  apply postTransactions_created s body v a b hv ha hb hle _ _ hfm
  · rw [hsub]; exact holds_fits s _ hxa
  · rw [hadd]; exact holds_fits s _ hxb

/-- For distinct accounts a successful transfer leaves the sum of the two
balances unchanged. -/
theorem conservation_distinct (s : Store) (body : TransactionBody) (v : TransactionValue)
    (a b : BankAccounts) (hv : transactionSchema body = .ok v)
    (ha : findUniqueAccount s v.source_account_id = some a)
    (hb : findUniqueAccount s v.destination_account_id = some b)
    (hne : v.source_account_id ≠ v.destination_account_id) (hle : v.amount ≤ a.balance)
    (hxa : s.holds (a.balance - v.amount) = true) (hxb : s.holds (b.balance + v.amount) = true)
    (hfm : columnFits s v.amount = true) :
    ∃ x y, balanceOf (postTransactions s body).2 v.source_account_id = some x ∧
      balanceOf (postTransactions s body).2 v.destination_account_id = some y ∧
      x + y = a.balance + b.balance := by
  obtain ⟨hp, hsub, hadd⟩ := postTransactions_exact s body v a b hv ha hb hle hxa hxb hfm
  rw [hp]
  refine ⟨a.balance - v.amount, b.balance + v.amount, ?_, ?_, by ring⟩
  · rw [balanceOf_transferred, hsub]
    simp [balanceOf, ha, hne]
  · rw [balanceOf_transferred, hadd]
    simp [balanceOf, hb]

/-- For distinct accounts and account ids that are keys, a successful transfer
leaves the sum of all balances unchanged. -/
theorem totalBalance_conserved (s : Store) (body : TransactionBody) (v : TransactionValue)
    (a b : BankAccounts) (hk : s.keysDistinct) (hv : transactionSchema body = .ok v)
    (ha : findUniqueAccount s v.source_account_id = some a)
    (hb : findUniqueAccount s v.destination_account_id = some b)
    (hne : v.source_account_id ≠ v.destination_account_id) (hle : v.amount ≤ a.balance)
    (hxa : s.holds (a.balance - v.amount) = true) (hxb : s.holds (b.balance + v.amount) = true)
    (hfm : columnFits s v.amount = true) :
    totalBalance (postTransactions s body).2 = totalBalance s := by
  obtain ⟨hp, hsub, hadd⟩ := postTransactions_exact s body v a b hv ha hb hle hxa hxb hfm
  rw [hp, totalBalance_transferred s v a b hk hne ha hb, hsub, hadd]
  ring

/-- A successful transfer from an account to itself adds the amount to its
balance. -/
theorem self_transfer_balance (s : Store) (body : TransactionBody) (v : TransactionValue)
    (a : BankAccounts) (hv : transactionSchema body = .ok v)
    (ha : findUniqueAccount s v.source_account_id = some a)
    (hself : v.destination_account_id = v.source_account_id) (hle : v.amount ≤ a.balance)
    (hxa : s.holds (a.balance - v.amount) = true) (hxb : s.holds (a.balance + v.amount) = true)
    (hfm : columnFits s v.amount = true) :
    (postTransactions s body).1.status = 201 ∧
    balanceOf (postTransactions s body).2 v.source_account_id = some (a.balance + v.amount) := by
  obtain ⟨hp, _, hadd⟩ :=
    postTransactions_exact s body v a a hv ha (hself ▸ ha) hle hxa hxb hfm
  rw [hp]
  refine ⟨rfl, ?_⟩
  rw [balanceOf_transferred, hadd]
  simp [balanceOf, ha, hself]

/-- A successful transfer of an amount that is at least 0 into an account
whose balance is at least 0 leaves both balances at least 0. -/
theorem nonneg_of_nonneg_amount (s : Store) (body : TransactionBody) (v : TransactionValue)
    (a b : BankAccounts) (hv : transactionSchema body = .ok v)
    (ha : findUniqueAccount s v.source_account_id = some a)
    (hb : findUniqueAccount s v.destination_account_id = some b)
    (hle : v.amount ≤ a.balance) (hamount : 0 ≤ v.amount) (hb0 : 0 ≤ b.balance)
    (hxa : s.holds (a.balance - v.amount) = true) (hxb : s.holds (b.balance + v.amount) = true)
    (hfm : columnFits s v.amount = true) :
    ∃ x y, balanceOf (postTransactions s body).2 v.source_account_id = some x ∧
      balanceOf (postTransactions s body).2 v.destination_account_id = some y ∧
      0 ≤ x ∧ 0 ≤ y := by
  obtain ⟨hp, hsub, hadd⟩ := postTransactions_exact s body v a b hv ha hb hle hxa hxb hfm
  rw [hp]
  by_cases hself : v.source_account_id = v.destination_account_id
  · refine ⟨b.balance + v.amount, b.balance + v.amount, ?_, ?_, by omega, by omega⟩
    · rw [balanceOf_transferred, hadd]
      simp [balanceOf, hb, hself]
    · rw [balanceOf_transferred, hadd]
      simp [balanceOf, hb]
  · refine ⟨a.balance - v.amount, b.balance + v.amount, ?_, ?_, by omega, by omega⟩
    · rw [balanceOf_transferred, hsub, hadd]
      simp [balanceOf, ha, hself]
    · rw [balanceOf_transferred, hadd]
      simp [balanceOf, hb]

/-- A transfer whose credit is outside the column range is answered 500 and
nothing is written. -/
theorem credit_overflow_refused (s : Store) (body : TransactionBody) (v : TransactionValue)
    (a b : BankAccounts) (hv : transactionSchema body = .ok v)
    (ha : findUniqueAccount s v.source_account_id = some a)
    (hb : findUniqueAccount s v.destination_account_id = some b)
    (hle : v.amount ≤ a.balance)
    (hfb : columnFits s (jsAdd b.balance v.amount) = false) :
    (postTransactions s body).1.status = 500 ∧ (postTransactions s body).2 = s := by
  rw [postTransactions_refused s body v a b hv ha hb hle hfb]
  exact ⟨rfl, rfl⟩

/-- A request whose amount is missing or not an integer is answered 400 and
the store is unchanged. -/
theorem invalid_amount_rejected (s : Store) (body : TransactionBody) (m : String)
    (h : joiInteger "amount" body.amount = .error m) :
    ∃ message, postTransactions s body = (⟨400, .error message⟩, s) := by
  have herr : ∃ message, transactionSchema body = .error message := by
    unfold transactionSchema
    cases joiInteger "source_account_id" body.source_account_id with
    | error e => exact ⟨e, rfl⟩
    | ok x =>
      cases joiInteger "destination_account_id" body.destination_account_id with
      | error e => exact ⟨e, rfl⟩
      | ok y => rw [h]; exact ⟨m, rfl⟩
  obtain ⟨message, hm⟩ := herr
  exact ⟨message, postTransactions_invalid s body message hm⟩

/-- The listing request is always answered by the first registration. -/
theorem getTransactions_first_registration (s : Store) :
    getTransactions s = some ⟨200, .transactions (s.transaction.map (viewFull s))⟩ := rfl

/-- No account object of the first registration carries an owner summary. -/
theorem viewFull_no_owner (s : Store) (t : Transaction) :
    ((viewFull s t).source.bind fun v => v.users) = none ∧
    ((viewFull s t).destination.bind fun v => v.users) = none := by
  unfold viewFull
  constructor
  · cases findUniqueAccount s t.source_account_id <;> rfl
  · cases findUniqueAccount s t.destination_account_id <;> rfl

/-- The second registration nests the owner summary of both accounts when the
referenced rows exist. -/
theorem second_registration_enriched (s : Store) (t : Transaction) (a b : BankAccounts) (u w : Users)
    (ha : findUniqueAccount s t.source_account_id = some a)
    (hb : findUniqueAccount s t.destination_account_id = some b)
    (hu : findUniqueUser s a.user_Id = some u) (hw : findUniqueUser s b.user_Id = some w) :
    ∃ x y, (viewSummary s t).source = some x ∧ (viewSummary s t).destination = some y ∧
      ownerMatches s x ∧ ownerMatches s y := by
  refine ⟨accountSummary s a, accountSummary s b, ?_, ?_, ?_, ?_⟩
  · simp [viewSummary, ha]
  · simp [viewSummary, hb]
  · refine ⟨a, u, ?_, hu, ?_⟩
    · have := findUniqueAccount_id s _ a ha
      show findUniqueAccount s a.id = some a
      rw [this]; exact ha
    · simp [accountSummary, hu]
  · refine ⟨b, w, ?_, hw, ?_⟩
    · have := findUniqueAccount_id s _ b hb
      show findUniqueAccount s b.id = some b
      rw [this]; exact hb
    · simp [accountSummary, hw]

/-- Two requests of the same amount, with the balance of the source between
the amount and twice the amount, run one after the other: the first answers
201 and the second answers with the insufficient-balance error. -/
theorem sequential_transfers_one_succeeds (s : Store) (body : TransactionBody) (v : TransactionValue)
    (a b : BankAccounts) (hv : transactionSchema body = .ok v)
    (ha : findUniqueAccount s v.source_account_id = some a)
    (hb : findUniqueAccount s v.destination_account_id = some b)
    (hne : v.source_account_id ≠ v.destination_account_id)
    (hle : v.amount ≤ a.balance) (hlt : a.balance < 2 * v.amount)
    (hxa : s.holds (a.balance - v.amount) = true) (hxb : s.holds (b.balance + v.amount) = true)
    (hfm : columnFits s v.amount = true) :
    runSchedule s (.start body) (.start body) [false, false, false, true, true, true] =
      (transferred s v a b, .done ⟨201, .success "Transaction successful"⟩,
        .done ⟨400, .error "Insufficient balance"⟩) := by
  obtain ⟨hp, hsub, _⟩ := postTransactions_exact s body v a b hv ha hb hle hxa hxb hfm
  have h1 := stepTransfer_three s body
  rw [hp] at h1
  have hsrc : ∃ a1, findUniqueAccount (transferred s v a b) v.source_account_id = some a1 ∧
      a1.balance = a.balance - v.amount := by
    have := balanceOf_transferred s v a b v.source_account_id
    rw [hsub] at this
    simp [balanceOf, ha, hne] at this
    obtain ⟨a1, h, hbal⟩ := this
    exact ⟨a1, h, hbal⟩
  have hdst : ∃ b1, findUniqueAccount (transferred s v a b) v.destination_account_id = some b1 := by
    have := balanceOf_transferred s v a b v.destination_account_id
    simp [balanceOf, hb] at this
    obtain ⟨b1, h, _⟩ := this
    exact ⟨b1, h⟩
  obtain ⟨a1, ha1, hbal⟩ := hsrc
  obtain ⟨b1, hb1⟩ := hdst
  have h2 := stepTransfer_three (transferred s v a b) body
  rw [postTransactions_insufficient (transferred s v a b) body v a1 b1 hv ha1 hb1 (by omega)] at h2
  simp only [runSchedule]
  rw [h1]
  simp only
  rw [h2]

/-! ## The transfer handler, one request at a time -/

/-- C4, as stated, fails: accounts 1 and 2 exist and are distinct, account 1
holds 10 and the amount is 2, yet the handler answers 500 and writes nothing.
Account 2 holds 2^53 - 1, the credit computed in JS arithmetic is 2^53 and not
2^53 + 1, and the integer column refuses it. -/
theorem transfer_refused_at_column_limit :
    findUniqueAccount storeBig 1 = some ⟨1, "BCA", 111, 10, 1⟩ ∧
    findUniqueAccount storeBig 2 = some ⟨2, "BNI", 222, 9007199254740991, 2⟩ ∧
    transactionSchema (transferRequest 1 2 2) = .ok ⟨1, 2, 2⟩ ∧
    (0 : Int) < 2 ∧ (2 : Int) ≤ 10 ∧
    jsAdd 9007199254740991 2 = 9007199254740992 ∧
    postTransactions storeBig (transferRequest 1 2 2) =
      (⟨500, .error "Internal server error"⟩, storeBig) ∧
    ¬ (postTransactions storeBig (transferRequest 1 2 2)).1.status = 201 :=
  ⟨rfl, rfl, rfl, by decide, by decide, by decide, by decide, by decide⟩

/-- C4, amended: for every store with two distinct existing accounts A and B
and every schema-valid request (A, B, amount) with 0 < amount and amount at
most the balance of A, where the balance of A and the balance of B plus amount
are safe integers within the range of the integer column, the handler answers
201, the balance of A is its old value minus amount, the balance of B is its
old value plus amount, and the transaction table is the old one followed by
exactly one record (A, B, amount). -/
theorem transfer_effect (s : Store) (body : TransactionBody) (A B amount : Int) (a b : BankAccounts)
    (hv : transactionSchema body = .ok ⟨A, B, amount⟩) (hAB : A ≠ B)
    (hA : findUniqueAccount s A = some a) (hB : findUniqueAccount s B = some b)
    (hpos : 0 < amount) (hle : amount ≤ a.balance)
    (hsa : s.holds a.balance = true) (hsb : s.holds (b.balance + amount) = true) :
    (postTransactions s body).1.status = 201 ∧
    balanceOf (postTransactions s body).2 A = some (a.balance - amount) ∧
    balanceOf (postTransactions s body).2 B = some (b.balance + amount) ∧
    (postTransactions s body).2.transaction =
      s.transaction ++ [⟨s.transaction_seq, A, B, amount⟩] := by
  have hbound := (holds_iff s a.balance).mp hsa
  have hxa : s.holds (a.balance - amount) = true := by
    rw [holds_iff]
    unfold maxSafeInteger at *
    omega
  have hfm : columnFits s amount = true := by
    simp only [columnFits, decide_eq_true_eq]
    omega
  obtain ⟨hp, hsub, hadd⟩ :=
    postTransactions_exact s body ⟨A, B, amount⟩ a b hv hA hB hle hxa hsb hfm
  rw [hp]
  refine ⟨rfl, ?_, ?_, rfl⟩
  · rw [balanceOf_transferred, hsub]
    simp [balanceOf, hA, hAB]
  · rw [balanceOf_transferred, hadd]
    simp [balanceOf, hB]

/-- Scenario 1: accounts 1 and 2 hold 100 and 50; a transfer of 40 from 1 to 2
answers 201 and leaves 60 and 90 and one record of amount 40. -/
theorem transfer_effect_witness :
    (postTransactions store1 (transferRequest 1 2 40)).1.status = 201 ∧
    balanceOf (postTransactions store1 (transferRequest 1 2 40)).2 1 = some 60 ∧
    balanceOf (postTransactions store1 (transferRequest 1 2 40)).2 2 = some 90 ∧
    (postTransactions store1 (transferRequest 1 2 40)).2.transaction = [] ++ [⟨1, 1, 2, 40⟩] :=
  transfer_effect store1 (transferRequest 1 2 40) 1 2 40 ⟨1, "BCA", 111, 100, 1⟩ ⟨2, "BNI", 222, 50, 2⟩
    rfl (by decide) rfl rfl (by decide) (by decide) (by decide) (by decide)

/-- C5: for every store in which both accounts of a schema-valid request exist
and the amount exceeds the balance of the source, the handler answers with the
insufficient-balance error and the store (every balance, every transaction
record) is unchanged. -/
theorem insufficient_funds (s : Store) (body : TransactionBody) (v : TransactionValue)
    (a b : BankAccounts) (hv : transactionSchema body = .ok v)
    (ha : findUniqueAccount s v.source_account_id = some a)
    (hb : findUniqueAccount s v.destination_account_id = some b)
    (hlt : a.balance < v.amount) :
    (postTransactions s body).1 = ⟨400, .error "Insufficient balance"⟩ ∧
    (postTransactions s body).2 = s := by
  rw [postTransactions_insufficient s body v a b hv ha hb hlt]
  exact ⟨rfl, rfl⟩

/-- Scenario 2: the source holds 10 and the amount is 40. -/
theorem insufficient_funds_witness :
    (postTransactions store2 (transferRequest 1 2 40)).1 = ⟨400, .error "Insufficient balance"⟩ ∧
    (postTransactions store2 (transferRequest 1 2 40)).2 = store2 :=
  insufficient_funds store2 (transferRequest 1 2 40) ⟨1, 2, 40⟩ ⟨1, "BCA", 111, 10, 1⟩
    ⟨2, "BNI", 222, 50, 2⟩ rfl rfl rfl (by decide)

/-- C6: for every store and every schema-valid request whose source account,
destination account or both do not exist, the handler answers 404 whatever the
amount and the balances are, and the store is unchanged. -/
theorem account_not_found (s : Store) (body : TransactionBody) (v : TransactionValue)
    (hv : transactionSchema body = .ok v)
    (h : findUniqueAccount s v.source_account_id = none ∨
      findUniqueAccount s v.destination_account_id = none) :
    (postTransactions s body).1 = ⟨404, .error "Source or destination account not found"⟩ ∧
    (postTransactions s body).2 = s := by
  rw [postTransactions_not_found s body v hv h]
  exact ⟨rfl, rfl⟩

/-- Scenario 3: the source id 999 does not exist, the amount is 10. -/
theorem account_not_found_witness :
    (postTransactions store1 (transferRequest 999 2 10)).1 =
      ⟨404, .error "Source or destination account not found"⟩ ∧
    (postTransactions store1 (transferRequest 999 2 10)).2 = store1 :=
  account_not_found store1 (transferRequest 999 2 10) ⟨999, 2, 10⟩ rfl (Or.inl rfl)

/-- C1: a transfer of 40 from account 1 to itself answers 201 and raises the
balance of account 1 from 100 to 140, and the sum of all balances from 150 to
190: the second write of the batch overwrites the debit with the credit
computed from the row read before the batch. -/
theorem self_transfer_mints :
    (postTransactions store1 (transferRequest 1 1 40)).1.status = 201 ∧
    balanceOf store1 1 = some 100 ∧
    balanceOf (postTransactions store1 (transferRequest 1 1 40)).2 1 = some 140 ∧
    totalBalance store1 = 150 ∧
    totalBalance (postTransactions store1 (transferRequest 1 1 40)).2 = 190 := by
  decide

/-- C2: every balance of the store is at least 0, the request (1, 2, -60)
answers 201, and afterwards the destination account holds -10. -/
theorem negative_amount_overdraws :
    (∀ a ∈ store1.bank_accounts, 0 ≤ a.balance) ∧
    (postTransactions store1 (transferRequest 1 2 (-60))).1.status = 201 ∧
    balanceOf (postTransactions store1 (transferRequest 1 2 (-60))).2 1 = some 160 ∧
    balanceOf (postTransactions store1 (transferRequest 1 2 (-60))).2 2 = some (-10) := by
  decide

/-- C3: the request (1, 2, -5) of scenario 4 is not refused: the handler
answers 201, moves 5 from account 2 to account 1 and stores a record of amount
-5. -/
theorem negative_amount_accepted :
    postTransactions store1 (transferRequest 1 2 (-5)) =
      (⟨201, .success "Transaction successful"⟩,
        { store1 with
          bank_accounts := [⟨1, "BCA", 111, 105, 1⟩, ⟨2, "BNI", 222, 45, 2⟩],
          transaction := [⟨1, 1, 2, -5⟩],
          transaction_seq := 2 }) := by
  decide

/-- C7, as stated, fails: a request refused by the schema and a request
refused for insufficient balance are answered with the same status, 400. -/
theorem insufficient_status_equals_validation_status :
    transactionSchema fractionalAmountBody = .error (joiMessage "amount" " must be an integer") ∧
    (postTransactions store2 (transferRequest 1 2 40)).1.body = .error "Insufficient balance" ∧
    (postTransactions store2 fractionalAmountBody).1.status = 400 ∧
    (postTransactions store2 (transferRequest 1 2 40)).1.status = 400 ∧
    ¬ ((postTransactions store2 fractionalAmountBody).1.status ≠
      (postTransactions store2 (transferRequest 1 2 40)).1.status) :=
  ⟨rfl, by decide, by decide, by decide, by decide⟩

/-- C7, amended: for every request refused by the schema and every request
refused for insufficient balance, both responses have status 400, and they
differ in the error message of the body: the insufficient-balance response
carries the text Insufficient balance, which is never a schema message. -/
theorem insufficient_distinct_by_message (s1 s2 : Store) (body1 body2 : TransactionBody)
    (message : String) (v : TransactionValue) (a b : BankAccounts)
    (h1 : transactionSchema body1 = .error message)
    (hv : transactionSchema body2 = .ok v)
    (ha : findUniqueAccount s2 v.source_account_id = some a)
    (hb : findUniqueAccount s2 v.destination_account_id = some b)
    (hlt : a.balance < v.amount) :
    (postTransactions s1 body1).1.status = 400 ∧
    (postTransactions s2 body2).1.status = 400 ∧
    (postTransactions s2 body2).1.body = .error "Insufficient balance" ∧
    (postTransactions s1 body1).1.body ≠ (postTransactions s2 body2).1.body := by
  rw [postTransactions_invalid s1 body1 message h1,
    postTransactions_insufficient s2 body2 v a b hv ha hb hlt]
  refine ⟨rfl, rfl, rfl, ?_⟩
  obtain ⟨key, what, hm⟩ := transactionSchema_error body1 message h1
  intro h
  have h2 : message = "Insufficient balance" := by simpa using h
  exact joiMessage_ne_insufficient key what (hm ▸ h2)

/-- Both refusals on the store of scenario 2: a fractional amount and an
amount of 40 against a balance of 10. -/
theorem insufficient_distinct_by_message_witness :
    (postTransactions store2 fractionalAmountBody).1.status = 400 ∧
    (postTransactions store2 (transferRequest 1 2 40)).1.status = 400 ∧
    (postTransactions store2 (transferRequest 1 2 40)).1.body = .error "Insufficient balance" ∧
    (postTransactions store2 fractionalAmountBody).1.body ≠
      (postTransactions store2 (transferRequest 1 2 40)).1.body :=
  insufficient_distinct_by_message store2 store2 fractionalAmountBody (transferRequest 1 2 40)
    (joiMessage "amount" " must be an integer") ⟨1, 2, 40⟩ ⟨1, "BCA", 111, 10, 1⟩
    ⟨2, "BNI", 222, 50, 2⟩ rfl rfl rfl rfl (by decide)

/-! ## The account-update handler -/

/-- C8, as stated, fails: the update request on account 1 with balance 999 is
accepted (200) and changes the balance of account 1 from 100 to 999. -/
theorem update_overwrites_balance :
    (putAccounts store1 1 ⟨.string "BCA", .integer 111, .integer 999⟩).1.status = 200 ∧
    balanceOf store1 1 = some 100 ∧
    balanceOf (putAccounts store1 1 ⟨.string "BCA", .integer 111, .integer 999⟩).2 1 = some 999 := by
  decide

/-- C8, amended: for every store and every request accepted (200) by the
account-update handler, the balance of the updated account afterwards is the
balance key of the request, the balance of every other account is the same as
before, and the users and transaction tables are untouched. -/
theorem update_sets_balance (s : Store) (id : Int) (body : UpdateBankAccountBody)
    (h : (putAccounts s id body).1.status = 200) :
    ∃ balance, body.balance = .integer balance ∧
      balanceOf (putAccounts s id body).2 id = some balance ∧
      (∀ j, j ≠ id → balanceOf (putAccounts s id body).2 j = balanceOf s j) ∧
      (putAccounts s id body).2.transaction = s.transaction ∧
      (putAccounts s id body).2.users = s.users := by
  obtain ⟨bank_name, bank_account_number, balance, hbal, ⟨a, ha⟩, hs⟩ := putAccounts_ok s id body h
  have hid : a.id = id := findUniqueAccount_id s id a ha
  have hbo : ∀ j, balanceOf (putAccounts s id body).2 j =
      (findUniqueAccount s j).map (fun r => if r.id = id then balance else r.balance) := by
    intro j
    rw [hs]
    exact balanceOf_updateRows s _ id j (fun a =>
      { a with bank_name := bank_name, bank_account_number := bank_account_number, balance := balance })
      (fun _ => rfl) rfl
  refine ⟨balance, hbal, ?_, ?_, ?_, ?_⟩
  · rw [hbo, ha]
    simp [hid]
  · intro j hj
    rw [hbo]
    unfold balanceOf
    cases hf : findUniqueAccount s j with
    | none => rfl
    | some r =>
      have hr : r.id = j := findUniqueAccount_id s j r hf
      have hne : ¬ r.id = id := by rw [hr]; exact hj
      simp [hne]
  · rw [hs]
  · rw [hs]

/-- The accepted update of account 1 in the store of scenario 1: the balance
becomes 999 and account 2 keeps 50. -/
theorem update_sets_balance_witness :
    ∃ balance, (UpdateBankAccountBody.mk (.string "BCA") (.integer 111) (.integer 999)).balance =
        .integer balance ∧
      balanceOf (putAccounts store1 1 ⟨.string "BCA", .integer 111, .integer 999⟩).2 1 = some balance ∧
      (∀ j, j ≠ 1 → balanceOf (putAccounts store1 1 ⟨.string "BCA", .integer 111, .integer 999⟩).2 j =
        balanceOf store1 j) ∧
      (putAccounts store1 1 ⟨.string "BCA", .integer 111, .integer 999⟩).2.transaction =
        store1.transaction ∧
      (putAccounts store1 1 ⟨.string "BCA", .integer 111, .integer 999⟩).2.users = store1.users :=
  update_sets_balance store1 1 ⟨.string "BCA", .integer 111, .integer 999⟩ (by decide)

/-! ## The listing route -/

/-- C9: after three successful transfers the listing request is answered by
the first registration; the answer has three records, one per stored
transaction, and no account object in it carries an owner summary. -/
theorem listing_lacks_owner_summary :
    store4.transaction.length = 3 ∧
    getTransactions store4 = getTransactionsFirst store4 ∧
    getTransactions store4 ≠ getTransactionsSecond store4 ∧
    ∃ rows, getTransactions store4 = some ⟨200, .transactions rows⟩ ∧ rows.length = 3 ∧
      ∀ r ∈ rows, (r.source.bind fun v => v.users) = none ∧
        (r.destination.bind fun v => v.users) = none :=
  ⟨by decide, rfl, by decide, _, rfl, by decide, by decide⟩

/-! ## Two transfer requests in flight -/

/-- C10: account 1 holds 3 and two requests of amount 2 from account 1 are in
flight. When both read the rows before either writes, both answer 201, two
records are stored, account 1 ends at 1 and account 2 at 2. -/
theorem interleaved_transfers_both_succeed :
    runSchedule store3 (.start (transferRequest 1 2 2)) (.start (transferRequest 1 2 2))
        [false, true, false, true, false, true] =
      ({ store3 with
          bank_accounts := [⟨1, "BCA", 111, 1, 1⟩, ⟨2, "BNI", 222, 2, 2⟩],
          transaction := [⟨1, 1, 2, 2⟩, ⟨2, 1, 2, 2⟩],
          transaction_seq := 3 },
        .done ⟨201, .success "Transaction successful"⟩,
        .done ⟨201, .success "Transaction successful"⟩) := by
  decide

end App
